import Mathlib

/-!
Verification of the fsm-presentation repository: shallow embeddings of the
demo state machines (toggle switch, traffic light, LangGraph order
workflow, XState llm-chat retry loop, form validation, and the persisted
game machine) together with theorems settling the specification's claims.

States and events of the plain TypeScript FSMs are embedded as `String`
values, mirroring the string-literal types of the source; the TypeScript
type discipline (`initialState : ToggleState`) becomes an explicit
membership hypothesis in the declared-state lists.
-/

namespace Toggle

/-- Declared states of the toggle FSM (part_001: `type ToggleState = 'ON' | 'OFF'`). -/
def declaredStates : List String := ["ON", "OFF"]

/-- Embedding of `ToggleFSM.transition` (part_001 lines 26-34): on `TOGGLE`
flip `OFF`/`ON`; any other event only warns and leaves the state unchanged. -/
def transition (currentState : String) (event : String) : String :=
  if event = "TOGGLE" then
    (if currentState = "OFF" then "ON" else "OFF")
  else
    currentState

/-- Repeatedly feed events to the toggle FSM, returning the final state. -/
def run (currentState : String) : List String → String
  | [] => currentState
  | e :: es => run (transition currentState e) es

/-- States observed after each event, in order (the demo logs each new state). -/
def trace (currentState : String) : List String → List String
  | [] => []
  | e :: es => transition currentState e :: trace (transition currentState e) es

end Toggle

namespace Traffic

/-- Declared states of the traffic-light FSM (part_002: `'RED' | 'YELLOW' | 'GREEN'`). -/
def declaredStates : List String := ["RED", "YELLOW", "GREEN"]

/-- Embedding of the transition table of `TrafficLightFSM` (part_002 lines 26-30). -/
def transitions : List (String × String) :=
  [("RED", "GREEN"), ("GREEN", "YELLOW"), ("YELLOW", "RED")]

/-- Embedding of `TrafficLightFSM.transition` (part_002 lines 34-42): on `NEXT`
look up the table; other events only warn and leave the state unchanged.
A `none` result models the table lookup yielding `undefined`, which the
TypeScript type `TrafficState` rules out for reachable states. -/
def transition? (currentState : String) (event : String) : Option String :=
  if event = "NEXT" then
    transitions.lookup currentState
  else
    some currentState

/-- Repeatedly feed events to the traffic-light FSM. -/
def run? (currentState : String) : List String → Option String
  | [] => some currentState
  | e :: es =>
    match transition? currentState e with
    | some s => run? s es
    | none => none

/-- States observed after each event, in order. -/
def trace? (currentState : String) : List String → Option (List String)
  | [] => some []
  | e :: es =>
    match transition? currentState e with
    | some s =>
      match trace? s es with
      | some tr => some (s :: tr)
      | none => none
    | none => none

end Traffic

lemma toggle_transition_mem (s e : String) (h : s ∈ Toggle.declaredStates) :
    Toggle.transition s e ∈ Toggle.declaredStates := by
  unfold Toggle.transition
  split
  · split <;> simp [Toggle.declaredStates]
  · exact h

lemma toggle_run_mem (events : List String) :
    ∀ s, s ∈ Toggle.declaredStates → Toggle.run s events ∈ Toggle.declaredStates := by
  induction events with
  | nil => intro s h; exact h
  | cons e es ih =>
    intro s h
    exact ih _ (toggle_transition_mem s e h)

lemma traffic_transition_mem (s e : String) (h : s ∈ Traffic.declaredStates) :
    ∃ s', Traffic.transition? s e = some s' ∧ s' ∈ Traffic.declaredStates := by
  simp only [Traffic.declaredStates, List.mem_cons, List.not_mem_nil, or_false] at h
  unfold Traffic.transition?
  split
  · rcases h with h | h | h <;> subst h
    · exact ⟨"GREEN", by decide, by decide⟩
    · exact ⟨"RED", by decide, by decide⟩
    · exact ⟨"YELLOW", by decide, by decide⟩
  · exact ⟨s, rfl, by simp [Traffic.declaredStates]; tauto⟩

lemma traffic_run_mem (events : List String) :
    ∀ s, s ∈ Traffic.declaredStates →
      ∃ s', Traffic.run? s events = some s' ∧ s' ∈ Traffic.declaredStates := by
  induction events with
  | nil => intro s h; exact ⟨s, rfl, h⟩
  | cons e es ih =>
    intro s h
    obtain ⟨s1, h1, hm⟩ := traffic_transition_mem s e h
    obtain ⟨s2, h2, hm2⟩ := ih s1 hm
    exact ⟨s2, by simp [Traffic.run?, h1, h2], hm2⟩

/-- C3: for every finite event sequence fed to a machine started in a declared
state, the resulting current state is again one of the declared states — so
`send()` can never leave either machine in an undeclared state.  The claim's
"after every prefix" is covered because the statement quantifies over all
event lists (each prefix is itself such a list). -/
theorem send_preserves_declared_states :
    (∀ (init : String), init ∈ Toggle.declaredStates → ∀ (events : List String),
      Toggle.run init events ∈ Toggle.declaredStates) ∧
    (∀ (init : String), init ∈ Traffic.declaredStates → ∀ (events : List String),
      ∃ s, Traffic.run? init events = some s ∧ s ∈ Traffic.declaredStates) := by
  constructor
  · intro init h events
    exact toggle_run_mem events init h
  · intro init h events
    exact traffic_run_mem events init h

/-- Witness for C3 at a concrete input: the toggle run from the declared
initial state `OFF` over two toggles ends in a declared state. -/
theorem send_preserves_declared_states_witness :
    Toggle.run "OFF" ["TOGGLE", "TOGGLE"] ∈ Toggle.declaredStates :=
  send_preserves_declared_states.1 "OFF" (by decide) ["TOGGLE", "TOGGLE"]

/-- C5: an event that matches no declared transition in the current state is a
silent no-op — the transition functions are total (the embedded calls return
rather than throw) and leave the state unchanged. -/
theorem unmatched_event_is_noop (s e : String) :
    (e ≠ "TOGGLE" → Toggle.transition s e = s) ∧
    (e ≠ "NEXT" → Traffic.transition? s e = some s) := by
  constructor
  · intro h
    simp [Toggle.transition, h]
  · intro h
    simp [Traffic.transition?, h]

/-- Witness for C5: the unsupported event `"INVALID"` leaves both machines
in place. -/
theorem unmatched_event_is_noop_witness :
    Toggle.transition "OFF" "INVALID" = "OFF" ∧
    Traffic.transition? "RED" "INVALID" = some "RED" :=
  ⟨(unmatched_event_is_noop "OFF" "INVALID").1 (by decide),
   (unmatched_event_is_noop "RED" "INVALID").2 (by decide)⟩

/-- C6: the toggle machine started in `OFF`, sent `TOGGLE` three times, passes
through `ON, OFF, ON` in that order, ending in `ON`. -/
theorem toggle_three_events_trace :
    Toggle.trace "OFF" ["TOGGLE", "TOGGLE", "TOGGLE"] = ["ON", "OFF", "ON"] ∧
    Toggle.run "OFF" ["TOGGLE", "TOGGLE", "TOGGLE"] = "ON" := by
  decide

/-- C7: the traffic-light machine started in `RED`, sent `NEXT` four times,
passes through `GREEN, YELLOW, RED, GREEN` in that order. -/
theorem traffic_four_next_trace :
    Traffic.trace? "RED" ["NEXT", "NEXT", "NEXT", "NEXT"] =
      some ["GREEN", "YELLOW", "RED", "GREEN"] := by
  decide

namespace Resolver

/-- One declared candidate transition for a `(state, event)` pair: an optional
guard over the context and a target state.  Context-update actions attached
to a candidate do not influence which candidate is selected and are kept out
of the resolution model.  The resolution rule itself is the statechart
library's documented behaviour, restated in spec §4.2. -/
structure Candidate (C : Type) where
  guard : Option (C → Bool)
  target : String

/-- A candidate is enabled when its guard is absent or evaluates true. -/
def candidateEnabled {C : Type} (ctx : C) (c : Candidate C) : Bool :=
  match c.guard with
  | none => true
  | some g => g ctx

/-- Resolve a candidate list in declaration order: fire the first candidate
whose guard is absent or evaluates true. -/
def resolveTransition {C : Type} (ctx : C) : List (Candidate C) → Option String
  | [] => none
  | c :: cs =>
    match c.guard with
    | none => some c.target
    | some g => if g ctx then some c.target else resolveTransition ctx cs

end Resolver

/-- Context of the form-validation machine (form-validation.ts lines 8-12). -/
structure FormContext where
  email : String
  password : String
  errors : List String
deriving DecidableEq, Repr

/-- The `validating.always` candidate list of form-validation.ts lines 76-85:
first candidate guarded by `errors.length === 0` targeting `submitting`,
second candidate unguarded targeting `error`. -/
def validatingAlways : List (Resolver.Candidate FormContext) :=
  [⟨some (fun ctx => ctx.errors.length == 0), "submitting"⟩,
   ⟨none, "error"⟩]

/-- Context of the part_004 XState order machine (`OrderContext`). -/
structure OrderContext where
  orderId : String
  items : List String
  total : Int
  paymentStatus : String
  shippingStatus : String
deriving DecidableEq, Repr

/-- The `processing_payment.after[PAYMENT_DELAY_MS]` candidate list of part_004
lines 211-231: first candidate guarded by `Math.random() < PAYMENT_SUCCESS_RATE`
targeting `payment_success`, second candidate unguarded targeting
`payment_failed`.  The random draw's outcome enters as the boolean
`paymentSucceeds`. -/
def processingPaymentAfter (paymentSucceeds : Bool) :
    List (Resolver.Candidate OrderContext) :=
  [⟨some (fun _ => paymentSucceeds), "payment_success"⟩,
   ⟨none, "payment_failed"⟩]

/-- C2: the resolver fires the first candidate (in declaration order) whose
guard is absent or true; in particular, with a first guard evaluating false
and an enabled second candidate, the second fires and never the first.
Instantiated with the `validating.always` list of form-validation.ts and the
`processing_payment.after` list of part_004. -/
theorem resolver_first_enabled_wins :
    (∀ (C : Type) (ctx : C) (cs : List (Resolver.Candidate C)),
      Resolver.resolveTransition ctx cs =
        (cs.find? (Resolver.candidateEnabled ctx)).map Resolver.Candidate.target) ∧
    (∀ (C : Type) (ctx : C) (g1 : C → Bool) (t1 : String)
        (c2 : Resolver.Candidate C) (rest : List (Resolver.Candidate C)),
      g1 ctx = false → Resolver.candidateEnabled ctx c2 = true →
      Resolver.resolveTransition ctx (⟨some g1, t1⟩ :: c2 :: rest) = some c2.target) ∧
    (∀ ctx : FormContext, ctx.errors ≠ [] →
      Resolver.resolveTransition ctx validatingAlways = some "error") ∧
    (∀ octx : OrderContext,
      Resolver.resolveTransition octx (processingPaymentAfter false) =
        some "payment_failed" ∧
      Resolver.resolveTransition octx (processingPaymentAfter true) =
        some "payment_success") := by
  refine ⟨?_, ?_, ?_, ?_⟩
  · intro C ctx cs
    induction cs with
    | nil => rfl
    | cons c cs ih =>
      simp only [Resolver.resolveTransition, List.find?, Resolver.candidateEnabled]
      match c with
      | ⟨none, t⟩ => rfl
      | ⟨some g, t⟩ =>
        by_cases hg : g ctx
        · simp [hg]
        · simp only [Bool.not_eq_true] at hg
          simp [hg, ih]
  · intro C ctx g1 t1 c2 rest h1 h2
    simp only [Resolver.resolveTransition, h1, if_false]
    match c2 with
    | ⟨none, t⟩ => rfl
    | ⟨some g2, t⟩ =>
      simp only [Resolver.candidateEnabled] at h2
      simp [Resolver.resolveTransition, h2]
  · intro ctx h
    have hlen : (ctx.errors.length == 0) = false := by
      simp [List.length_eq_zero, h]
    simp [validatingAlways, Resolver.resolveTransition, hlen]
  · intro octx
    constructor <;> rfl

/-- Witness for C2 at a concrete input: a form context with one validation
message resolves the `validating.always` list to `error` (its first guard is
false, so the unguarded second candidate fires). -/
theorem resolver_first_enabled_wins_witness :
    Resolver.resolveTransition
        (FormContext.mk "" "" ["이메일을 입력해주세요"]) validatingAlways =
      some "error" :=
  resolver_first_enabled_wins.2.2.1 (FormContext.mk "" "" ["이메일을 입력해주세요"])
    (by decide)

namespace OrderGraph

/-- Order status values of the part_003 LangGraph order workflow. -/
inductive OrderStatus
  | pending | processing_payment | paid | shipping | delivered | canceled
deriving DecidableEq, Repr

/-- Workflow state of part_003 (`OrderGraphAnnotation`, lines 15-22). -/
structure OrderGraphState where
  orderId : String
  items : List String
  total : Int
  orderStatus : OrderStatus
  retryCount : Nat
  messages : List String
deriving DecidableEq, Repr

/-- part_003 line 11. -/
def MAX_PAYMENT_RETRIES : Nat := 3

/-- Embedding of `createOrderNode` (part_003 lines 27-37). -/
def createOrderNode (state : OrderGraphState) : OrderGraphState :=
  { orderId := "ORD-001", items := ["Item A", "Item B"], total := 100,
    orderStatus := .pending, retryCount := 0,
    messages := state.messages ++ ["주문 생성됨 (Pending)"] }

/-- Embedding of `confirmOrderNode` (part_003 lines 39-46); the delay is
irrelevant to the state update. -/
def confirmOrderNode (state : OrderGraphState) : OrderGraphState :=
  { state with messages := state.messages ++ ["주문 확인됨"] }

/-- Embedding of `processPaymentNode` (part_003 lines 48-68); the
`Math.random() < PAYMENT_SUCCESS_RATE` draw enters as the boolean `success`.
On failure the node records the failure by incrementing `retryCount` and
setting the status back to `pending`. -/
def processPaymentNode (state : OrderGraphState) (success : Bool) : OrderGraphState :=
  if success then
    { state with
      orderStatus := .paid,
      messages := state.messages ++ ["결제 완료 (Paid)"] }
  else
    { state with
      orderStatus := .pending,
      retryCount := state.retryCount + 1,
      messages := state.messages ++
        ["결제 실패 (시도 " ++ toString (state.retryCount + 1) ++ ")"] }

/-- Routing result of the conditional edge after `process_payment`:
loop back to `process_payment`, end the workflow, or proceed to `ship_order`. -/
inductive PaymentRoute
  | process_payment | endWorkflow | ship_order
deriving DecidableEq, Repr

/-- Embedding of `shouldRetryPayment` (part_003 lines 107-120). -/
def shouldRetryPayment (state : OrderGraphState) : PaymentRoute :=
  if state.orderStatus = .pending ∧ state.retryCount < MAX_PAYMENT_RETRIES then
    .process_payment
  else if state.orderStatus = .pending ∧ MAX_PAYMENT_RETRIES ≤ state.retryCount then
    .endWorkflow
  else
    .ship_order

/-- The graph's payment loop (`addConditionalEdges('process_payment',
shouldRetryPayment)`, part_003 line 135): run `process_payment` once,
consult `shouldRetryPayment`, and loop while it routes back.  Each attempt
consumes one outcome of the random draw; the returned number counts how
many times `process_payment` executed. -/
def paymentAttempts : OrderGraphState → List Bool → OrderGraphState × Nat
  | state, [] => (state, 0)
  | state, outcome :: rest =>
    let state' := processPaymentNode state outcome
    match shouldRetryPayment state' with
    | .process_payment =>
      let result := paymentAttempts state' rest
      (result.1, result.2 + 1)
    | _ => (state', 1)

/-- Initial state of the demo run (part_003 lines 149-156). -/
def initialState : OrderGraphState :=
  { orderId := "", items := [], total := 0, orderStatus := .pending,
    retryCount := 0, messages := [] }

/-- Workflow state on entering `process_payment` for the first time:
`create_order` then `confirm_order` (part_003 lines 131-133). -/
def statePending : OrderGraphState := confirmOrderNode (createOrderNode initialState)

end OrderGraph

namespace LlmChat

/-- States of the llm-chat machine (llm-chat.ts). -/
inductive ChatState
  | idle | calling_llm | success | error | failed
deriving DecidableEq, Repr

/-- Context of the llm-chat machine (llm-chat.ts lines 14-19). -/
structure ChatContext where
  message : String
  response : Option String
  error : Option String
  retryCount : Nat
deriving DecidableEq, Repr

/-- Actions of the `idle` state's `SEND_MESSAGE` transition
(llm-chat.ts lines 87-96): store the message, clear response and error,
reset the retry counter; target `calling_llm`. -/
def sendMessage (context : ChatContext) (m : String) : ChatContext :=
  { context with message := m, response := none, error := none, retryCount := 0 }

/-- Action of `calling_llm.invoke.onError` (llm-chat.ts lines 131-136): record
the failure message and move to the `error` state. -/
def onError (context : ChatContext) (msg : String) : ChatContext :=
  { context with error := some msg }

/-- Resolution of the `error` state's `after: 1500` candidate list
(llm-chat.ts lines 175-190): if `retryCount < 3`, return to `calling_llm`
incrementing `retryCount` and clearing `error`; otherwise go to `failed`.
The explicit `RETRY` event (lines 192-199) performs the same increment. -/
def errorAfterStep (context : ChatContext) : ChatState × ChatContext :=
  if context.retryCount < 3 then
    (ChatState.calling_llm,
      { context with retryCount := context.retryCount + 1, error := none })
  else
    (ChatState.failed, context)

/-- Run the machine under `n` consecutive LLM failures, starting from a given
state and context; `attempts` counts entries into `calling_llm` (i.e. LLM
call attempts).  While in `calling_llm`, a failure delivers `onError` and the
`after: 1500` resolution decides between a further attempt and `failed`. -/
def failRun : Nat → ChatState → ChatContext → Nat → ChatState × ChatContext × Nat
  | 0, st, c, attempts => (st, c, attempts)
  | n + 1, st, c, attempts =>
    if st = ChatState.calling_llm then
      let failed := onError c "LLM API 호출 실패: 타임아웃"
      let next := errorAfterStep failed
      failRun n next.1 next.2
        (if next.1 = ChatState.calling_llm then attempts + 1 else attempts)
    else (st, c, attempts)

/-- Initial context of the llm-chat machine (llm-chat.ts lines 78-83). -/
def initChatContext : ChatContext :=
  { message := "", response := none, error := none, retryCount := 0 }

end LlmChat

/-- C1 counterexample: in the llm-chat machine, the counter is incremented on
the retry transition rather than on the recorded failure, so after the third
consecutive failure of a message (first attempt with `retryCount = 0`) the
`after: 1500` resolution still satisfies `retryCount < 3` and re-enters
`calling_llm`: a fourth attempt occurs and the machine is not in the terminal
`failed` state — contradicting the claim that the third consecutive recorded
failure routes to the terminal failure state and that no fourth attempt ever
occurs. -/
theorem llm_third_failure_retries_again :
    (LlmChat.failRun 3 LlmChat.ChatState.calling_llm
        (LlmChat.sendMessage LlmChat.initChatContext "hello") 1).1 =
      LlmChat.ChatState.calling_llm ∧
    (LlmChat.failRun 3 LlmChat.ChatState.calling_llm
        (LlmChat.sendMessage LlmChat.initChatContext "hello") 1).1 ≠
      LlmChat.ChatState.failed ∧
    (LlmChat.failRun 3 LlmChat.ChatState.calling_llm
        (LlmChat.sendMessage LlmChat.initChatContext "hello") 1).2.2 = 4 := by
  refine ⟨rfl, by decide, rfl⟩

lemma paymentAttempts_all_fail (m : Nat) :
    (OrderGraph.paymentAttempts OrderGraph.statePending
        (List.replicate (m + 3) false)).2 = 3 ∧
    OrderGraph.shouldRetryPayment
        (OrderGraph.paymentAttempts OrderGraph.statePending
          (List.replicate (m + 3) false)).1 =
      OrderGraph.PaymentRoute.endWorkflow := by
  have h3 : List.replicate (m + 3) false =
      false :: false :: false :: List.replicate m false := by
    rw [show m + 3 = (m + 2) + 1 from rfl, List.replicate_succ,
        show m + 2 = (m + 1) + 1 from rfl, List.replicate_succ, List.replicate_succ]
  rw [h3]
  exact ⟨rfl, rfl⟩

/-- C1 amended: (a) in the LangGraph order workflow (part_003), each recorded
payment failure increments `retryCount`, `shouldRetryPayment` routes back to
`process_payment` exactly when the count is strictly below `3` (for a state
whose payment failed, i.e. status `pending`), and under any run of at least
three consecutive failures the workflow executes exactly 3 payment attempts
and is then routed to the terminal `END` — no fourth attempt occurs;
(b) in the llm-chat machine the counter is instead incremented on the retry
transition, the `after: 1500` resolution of the `error` state retries exactly
when `retryCount < 3`, and a message whose LLM calls all fail reaches the
terminal `failed` state after the fourth consecutive failure, with exactly
4 call attempts. -/
theorem retry_bound_amended (k : Nat) (hk : 3 ≤ k) :
    (∀ s : OrderGraph.OrderGraphState,
      (OrderGraph.processPaymentNode s false).retryCount = s.retryCount + 1) ∧
    (∀ s : OrderGraph.OrderGraphState,
      s.orderStatus = OrderGraph.OrderStatus.pending →
      (OrderGraph.shouldRetryPayment s = OrderGraph.PaymentRoute.process_payment ↔
        s.retryCount < 3)) ∧
    (OrderGraph.paymentAttempts OrderGraph.statePending
        (List.replicate k false)).2 = 3 ∧
    OrderGraph.shouldRetryPayment
        (OrderGraph.paymentAttempts OrderGraph.statePending
          (List.replicate k false)).1 =
      OrderGraph.PaymentRoute.endWorkflow ∧
    (∀ c : LlmChat.ChatContext,
      (LlmChat.errorAfterStep c).1 = LlmChat.ChatState.calling_llm ↔
        c.retryCount < 3) ∧
    (LlmChat.failRun 4 LlmChat.ChatState.calling_llm
        (LlmChat.sendMessage LlmChat.initChatContext "hello") 1).1 =
      LlmChat.ChatState.failed ∧
    (LlmChat.failRun 4 LlmChat.ChatState.calling_llm
        (LlmChat.sendMessage LlmChat.initChatContext "hello") 1).2.2 = 4 := by
  obtain ⟨m, rfl⟩ : ∃ m, k = m + 3 := ⟨k - 3, by omega⟩
  refine ⟨?_, ?_, (paymentAttempts_all_fail m).1, (paymentAttempts_all_fail m).2,
    ?_, rfl, rfl⟩
  · intro s
    simp [OrderGraph.processPaymentNode]
  · intro s h
    by_cases hlt : s.retryCount < 3
    · simp [OrderGraph.shouldRetryPayment, OrderGraph.MAX_PAYMENT_RETRIES, h, hlt]
    · have hge : 3 ≤ s.retryCount := Nat.le_of_not_lt hlt
      simp [OrderGraph.shouldRetryPayment, OrderGraph.MAX_PAYMENT_RETRIES, h, hlt, hge]
  · intro c
    by_cases hlt : c.retryCount < 3 <;> simp [LlmChat.errorAfterStep, hlt]

/-- Witness for C1 (amended) at `k = 3`: the all-fail run over exactly three
outcomes performs exactly 3 payment attempts. -/
theorem retry_bound_amended_witness :
    (OrderGraph.paymentAttempts OrderGraph.statePending
        (List.replicate 3 false)).2 = 3 :=
  (retry_bound_amended 3 (by decide)).2.2.1

namespace Timers

/-- Modelled from the spec: the timer scheduler of §4.3 (per-state delayed
transitions with mandatory cancellation on exit), the executable semantics
behind the `after:` declarations of part_004, part_005 and part_006; the
scheduler itself lives in the statechart library, not under src/.  A machine
declares, per state, at most one delayed transition `(d, target)` and
event-triggered transitions. -/
structure TimedMachine where
  declaredAfter : String → Option (Nat × String)
  declaredOn : String → String → Option String

/-- A machine configuration: the current state plus the pending timer, kept as
remaining delay and target.  The pending timer always belongs to the current
state: it is armed on entry and discarded on exit. -/
structure TimedConfig where
  current : String
  timer : Option (Nat × String)
deriving DecidableEq, Repr

/-- Entering a state arms its declared timer (re-entry arms a fresh one);
whatever timer the exited state had pending is dropped — cancellation on
exit. -/
def enterTimed (m : TimedMachine) (s : String) : TimedConfig :=
  { current := s, timer := m.declaredAfter s }

/-- Observable steps: delivering an event, or real time elapsing. -/
inductive TimedStep
  | send (e : String)
  | elapse (ms : Nat)

/-- Small-step semantics: an event either matches a declared transition (exit
the state, cancelling its timer, and enter the target) or is a no-op; elapsed
time counts down the pending timer and fires it when the delay is exhausted,
entering its target. -/
def stepTimed (m : TimedMachine) (c : TimedConfig) : TimedStep → TimedConfig
  | .send e =>
    match m.declaredOn c.current e with
    | some t => enterTimed m t
    | none => c
  | .elapse ms =>
    match c.timer with
    | some (d, t) =>
      if d ≤ ms then enterTimed m t
      else { current := c.current, timer := some (d - ms, t) }
    | none => c

/-- All configurations visited while running a step list (initial one included). -/
def runTimed (m : TimedMachine) (c : TimedConfig) : List TimedStep → List TimedConfig
  | [] => [c]
  | s :: ss => c :: runTimed m (stepTimed m c s) ss

/-- The spec's timer-cancellation test machine: state `A` declares a 1000 ms
delayed transition to `B` and an event-triggered transition `EXIT` to `C`;
`B` and `C` declare nothing. -/
def timerDemo : TimedMachine :=
  { declaredAfter := fun s => if s = "A" then some (1000, "B") else none,
    declaredOn := fun s e => if s = "A" ∧ e = "EXIT" then some "C" else none }

end Timers

lemma timerDemo_c_fixed (s : Timers.TimedStep) :
    Timers.stepTimed Timers.timerDemo ⟨"C", none⟩ s = ⟨"C", none⟩ := by
  cases s with
  | send e => simp [Timers.stepTimed, Timers.timerDemo]
  | elapse ms => simp [Timers.stepTimed]

lemma timerDemo_c_run (steps : List Timers.TimedStep) :
    ∀ c ∈ Timers.runTimed Timers.timerDemo ⟨"C", none⟩ steps, c = ⟨"C", none⟩ := by
  induction steps with
  | nil => intro c hc; simpa [Timers.runTimed] using hc
  | cons s ss ih =>
    intro c hc
    simp only [Timers.runTimed, timerDemo_c_fixed, List.mem_cons] at hc
    rcases hc with rfl | hc
    · rfl
    · exact ih c hc

/-- C4: in the timer-scheduler model, entering `A` arms its 1000 ms timer to
`B`; after 500 ms (timer still pending) the event `EXIT` leaves `A` for `C`,
cancelling the timer (the resulting configuration holds no pending timer) —
and however the run continues (any further elapses and events, in particular
letting well over 1000 ms pass), no configuration with current state `B` is
ever visited: a timer whose state has been exited never applies its
transition. -/
theorem timer_cancelled_on_exit (rest : List Timers.TimedStep) :
    Timers.stepTimed Timers.timerDemo
        (Timers.stepTimed Timers.timerDemo
          (Timers.enterTimed Timers.timerDemo "A") (Timers.TimedStep.elapse 500))
        (Timers.TimedStep.send "EXIT") = ⟨"C", none⟩ ∧
    ∀ c ∈ Timers.runTimed Timers.timerDemo (Timers.enterTimed Timers.timerDemo "A")
        (Timers.TimedStep.elapse 500 :: Timers.TimedStep.send "EXIT" :: rest),
      c.current ≠ "B" := by
  have h2 : Timers.stepTimed Timers.timerDemo
      (Timers.stepTimed Timers.timerDemo
        (Timers.enterTimed Timers.timerDemo "A") (Timers.TimedStep.elapse 500))
      (Timers.TimedStep.send "EXIT") = ⟨"C", none⟩ := by decide
  refine ⟨h2, ?_⟩
  intro c hc
  simp only [Timers.runTimed, List.mem_cons] at hc
  rcases hc with rfl | rfl | hc
  · decide
  · decide
  · have := timerDemo_c_run rest c (by rw [← h2]; exact hc)
    subst this
    decide

/-- Witness for C4: with a further 1000 ms elapse after the exit to `C`
(so 1500 ms total, beyond the 1000 ms delay), the final visited
configuration is not in `B`. -/
theorem timer_cancelled_on_exit_witness :
    (Timers.TimedConfig.mk "C" none).current ≠ "B" :=
  (timer_cancelled_on_exit [Timers.TimedStep.elapse 1000]).2
    (Timers.TimedConfig.mk "C" none) (by decide)

namespace Game

/-- JSON values, the data over which the save file is written and parsed.
`jobj` models a parsed JavaScript object (unique keys); `jarr` a parsed
array.  The demo's numbers are embedded as integers. -/
inductive JValue
  | jnull
  | jbool (b : Bool)
  | jnum (n : Int)
  | jstr (s : String)
  | jarr (elems : List JValue)
  | jobj (fields : List (String × JValue))

/-- Embedding of `isRecord` (part_006 lines 32-33): `typeof value === 'object'
&& value !== null`.  In JavaScript a parsed array also has `typeof 'object'`,
so arrays satisfy the check. -/
def isRecord : JValue → Bool
  | .jobj _ => true
  | .jarr _ => true
  | _ => false

/-- Property access `data.key` on a parsed JSON value: a field of an object,
`undefined` (here `none`) otherwise — in particular on arrays, whose own
properties are numeric indices. -/
def getField : JValue → String → Option JValue
  | .jobj fields, key => fields.lookup key
  | _, _ => none

/-- The check `typeof x === 'number'` applied to a possibly missing property. -/
def asNumber : Option JValue → Option Int
  | some (.jnum n) => some n
  | _ => none

/-- The check `typeof x === 'string'` applied to a possibly missing property. -/
def asString : Option JValue → Option String
  | some (.jstr s) => some s
  | _ => none

/-- Context of the game machine (part_006 lines 10-15). -/
structure GameContext where
  level : Int
  score : Int
  lives : Int
  playerName : String
deriving DecidableEq, Repr

/-- Embedding of `parseSavedGame` (part_006 lines 36-58): reject non-records,
destructure the four fields, reject wrong types, otherwise rebuild the
context. -/
def parseSavedGame (data : JValue) : Option GameContext :=
  if isRecord data then
    match asNumber (getField data "level"), asNumber (getField data "score"),
          asNumber (getField data "lives"), asString (getField data "playerName") with
    | some level, some score, some lives, some playerName =>
      some { level := level, score := score, lives := lives, playerName := playerName }
    | _, _, _, _ => none
  else
    none

/-- The save-file object written by `saveGame` (part_006 lines 61-85): the four
context fields plus a `savedAt` timestamp string.  Writing and re-reading the
JSON file is the identity on the value. -/
def saveData (context : GameContext) (savedAt : String) : JValue :=
  .jobj [("level", .jnum context.level), ("score", .jnum context.score),
         ("lives", .jnum context.lives), ("playerName", .jstr context.playerName),
         ("savedAt", .jstr savedAt)]

/-- States of the game machine (part_006 lines 88-188). -/
inductive GameState
  | menu | playing | paused | savingFromPlaying | savingFromPaused | gameOver
deriving DecidableEq, Repr

/-- A `Partial<GameContext>` as carried by the `LOAD_GAME` event: each field
optionally present. -/
structure PartialGameContext where
  level : Option Int
  score : Option Int
  lives : Option Int
  playerName : Option String
deriving DecidableEq, Repr

/-- The `LOAD_GAME` action `assign(loadEvent.savedState || {})` (part_006
lines 110-117): merge the present fields of the saved state into the context. -/
def mergeContext (context : GameContext) (savedState : PartialGameContext) : GameContext :=
  { level := savedState.level.getD context.level,
    score := savedState.score.getD context.score,
    lives := savedState.lives.getD context.lives,
    playerName := savedState.playerName.getD context.playerName }

/-- A full context sent as `savedState` (what `loadSavedGame` produces from a
valid save file and the demo passes to `LOAD_GAME`, part_006 lines 287-291). -/
def toPartial (context : GameContext) : PartialGameContext :=
  { level := some context.level, score := some context.score,
    lives := some context.lives, playerName := some context.playerName }

/-- Events of the game machine (part_006 lines 17-27), payloads included. -/
inductive GameEvent
  | NEW_GAME
  | LOAD_GAME (savedState : PartialGameContext)
  | EARN_POINTS (points : Int)
  | LOSE_LIFE
  | LEVEL_UP
  | SAVE
  | PAUSE
  | RESUME
  | QUIT
  | RESTART
deriving DecidableEq, Repr

/-- A machine configuration: current state plus context. -/
structure GameConfig where
  state : GameState
  context : GameContext
deriving DecidableEq, Repr

/-- The machine's initial configuration (part_006 lines 90-96). -/
def initialGameConfig : GameConfig :=
  { state := .menu,
    context := { level := 1, score := 0, lives := 3, playerName := "Player" } }

/-- The `on:` handlers of each state (part_006 lines 97-187).  An event with no
matching handler in the current state leaves the configuration unchanged.
`EARN_POINTS` adds `points || 100`, so a zero payload (falsy in JavaScript)
adds 100. -/
def applyGameEvent (c : GameConfig) (e : GameEvent) : GameConfig :=
  match c.state, e with
  | .menu, .NEW_GAME =>
    { state := .playing,
      context := { c.context with level := 1, score := 0, lives := 3 } }
  | .menu, .LOAD_GAME savedState =>
    { state := .playing, context := mergeContext c.context savedState }
  | .playing, .EARN_POINTS points =>
    { c with context :=
        { c.context with
          score := c.context.score + (if points = 0 then 100 else points) } }
  | .playing, .LOSE_LIFE =>
    { c with context := { c.context with lives := c.context.lives - 1 } }
  | .playing, .LEVEL_UP =>
    { c with context :=
        { c.context with
          level := c.context.level + 1, lives := c.context.lives + 1 } }
  | .playing, .SAVE => { c with state := .savingFromPlaying }
  | .playing, .PAUSE => { c with state := .paused }
  | .paused, .RESUME => { c with state := .playing }
  | .paused, .SAVE => { c with state := .savingFromPaused }
  | .paused, .QUIT => { c with state := .menu }
  | .gameOver, .RESTART => { c with state := .menu }
  | _, _ => c

/-- The `after: 1000` timers of the saving states (part_006 lines 163-176)
firing: return to `playing` resp. `paused`. -/
def fireSaveTimer (c : GameConfig) : GameConfig :=
  match c.state with
  | .savingFromPlaying => { c with state := .playing }
  | .savingFromPaused => { c with state := .paused }
  | _ => c

/-- The eventless `playing.always` transition (part_006 lines 149-153): if
`lives <= 0` while in `playing`, move immediately to `gameOver`.  The
statechart library re-evaluates eventless transitions after every event and
timer step, so settling is applied after each step below. -/
def resolveAlways (c : GameConfig) : GameConfig :=
  if c.state = .playing ∧ c.context.lives ≤ 0 then { c with state := .gameOver }
  else c

/-- A step of the running machine: an external event or the saving timer. -/
inductive GameStep
  | ev (e : GameEvent)
  | saveTimer
deriving DecidableEq, Repr

/-- One settled step: apply the event or timer, then the `always` resolution. -/
def gameStep (c : GameConfig) : GameStep → GameConfig
  | .ev e => resolveAlways (applyGameEvent c e)
  | .saveTimer => resolveAlways (fireSaveTimer c)

/-- Run the machine from a configuration over a step list. -/
def runGame (c : GameConfig) (steps : List GameStep) : GameConfig :=
  steps.foldl gameStep c

end Game

/-- C8: round trip through persistence — for every game context, writing the
save object with `saveGame`, parsing it back with `parseSavedGame`, and
delivering the parsed context via `LOAD_GAME` to a freshly created machine
(in `menu`, with the default initial context) reproduces exactly the original
`level`, `score`, `lives` and `playerName` in the machine's context. -/
theorem save_load_round_trip (context : Game.GameContext) (savedAt : String) :
    Game.parseSavedGame (Game.saveData context savedAt) = some context ∧
    (Game.gameStep Game.initialGameConfig
        (Game.GameStep.ev (Game.GameEvent.LOAD_GAME (Game.toPartial context)))).context =
      context := by
  constructor
  · rfl
  · simp only [Game.gameStep, Game.applyGameEvent]
    unfold Game.resolveAlways
    split <;> rfl

/-- Invariant used for C9: in any of the in-game states (`playing`, `paused`,
or the two saving states) the context holds at least one life. -/
def livesInv (c : Game.GameConfig) : Prop :=
  (c.state = Game.GameState.playing ∨ c.state = Game.GameState.paused ∨
   c.state = Game.GameState.savingFromPlaying ∨
   c.state = Game.GameState.savingFromPaused) →
  1 ≤ c.context.lives

lemma livesInv_resolveAlways (c : Game.GameConfig)
    (h : (c.state = Game.GameState.paused ∨
          c.state = Game.GameState.savingFromPlaying ∨
          c.state = Game.GameState.savingFromPaused) →
         1 ≤ c.context.lives) :
    livesInv (Game.resolveAlways c) := by
  unfold Game.resolveAlways
  split
  · rename_i hcond
    intro hs
    simp at hs
  · rename_i hcond
    intro hs
    rcases hs with hs | hs | hs | hs
    · rw [hs] at hcond
      simp only [true_and, not_le] at hcond
      omega
    · exact h (Or.inl hs)
    · exact h (Or.inr (Or.inl hs))
    · exact h (Or.inr (Or.inr hs))

lemma livesInv_step (c : Game.GameConfig) (s : Game.GameStep) (h : livesInv c) :
    livesInv (Game.gameStep c s) := by
  cases s with
  | saveTimer =>
    apply livesInv_resolveAlways
    rcases c with ⟨st, ctx⟩
    cases st <;> intro hs <;>
      simp only [Game.fireSaveTimer] at hs ⊢ <;>
      exact h (by simp_all)
  | ev e =>
    apply livesInv_resolveAlways
    rcases c with ⟨st, ctx⟩
    cases st <;> cases e <;> intro hs <;>
      simp only [Game.applyGameEvent] at hs ⊢ <;>
      first
        | (exact h (by simp_all))
        | simp_all

lemma livesInv_run (steps : List Game.GameStep) :
    ∀ c, livesInv c → livesInv (Game.runGame c steps) := by
  induction steps with
  | nil => intro c h; exact h
  | cons s ss ih =>
    intro c h
    exact ih _ (livesInv_step c s h)

/-- C9: the game machine never rests in `playing` with `lives ≤ 0` — after any
sequence of events and saving-timer firings from the initial configuration,
whenever the settled state is `playing` the context satisfies `lives > 0`
(the eventless `always` transition routes any `lives ≤ 0` situation straight
to `gameOver`). -/
theorem playing_implies_lives_positive (steps : List Game.GameStep)
    (h : (Game.runGame Game.initialGameConfig steps).state = Game.GameState.playing) :
    0 < (Game.runGame Game.initialGameConfig steps).context.lives := by
  have h0 : livesInv Game.initialGameConfig := by
    intro hs
    norm_num [Game.initialGameConfig]
  have hinv := livesInv_run steps Game.initialGameConfig h0
  have := hinv (Or.inl h)
  omega

/-- Witness for C9: after `NEW_GAME` the machine is settled in `playing`, and
the theorem yields `lives > 0` there. -/
theorem playing_implies_lives_positive_witness :
    0 < (Game.runGame Game.initialGameConfig
        [Game.GameStep.ev Game.GameEvent.NEW_GAME]).context.lives :=
  playing_implies_lives_positive [Game.GameStep.ev Game.GameEvent.NEW_GAME] (by decide)

lemma asNumber_eq_some (o : Option Game.JValue) (n : Int) :
    Game.asNumber o = some n ↔ o = some (Game.JValue.jnum n) := by
  cases o with
  | none => simp [Game.asNumber]
  | some v => cases v <;> simp [Game.asNumber]

lemma asString_eq_some (o : Option Game.JValue) (s : String) :
    Game.asString o = some s ↔ o = some (Game.JValue.jstr s) := by
  cases o with
  | none => simp [Game.asString]
  | some v => cases v <;> simp [Game.asString]

/-- The spec's wording of a loadable save file: a non-null object (in
JavaScript terms `typeof data === 'object' && data !== null`) whose `level`,
`score` and `lives` properties are numbers and whose `playerName` property is
a string.  Stated from the claim's words, to be compared against the embedded
`parseSavedGame`. -/
def specSavedGameShape (v : Game.JValue) : Prop :=
  Game.isRecord v = true ∧
  (∃ n : Int, Game.getField v "level" = some (Game.JValue.jnum n)) ∧
  (∃ n : Int, Game.getField v "score" = some (Game.JValue.jnum n)) ∧
  (∃ n : Int, Game.getField v "lives" = some (Game.JValue.jnum n)) ∧
  (∃ s : String, Game.getField v "playerName" = some (Game.JValue.jstr s))

/-- C10: `parseSavedGame` is a total function on arbitrary JSON input (the
embedding returns rather than throws on every value) and succeeds exactly on
inputs of the claimed shape: a non-null object whose `level`, `score` and
`lives` fields are numbers and whose `playerName` field is a string; on every
other input it returns `none` (the demo then falls back to starting without
a loaded game). -/
theorem parseSavedGame_characterization (v : Game.JValue) :
    (∃ context, Game.parseSavedGame v = some context) ↔ specSavedGameShape v := by
  constructor
  · rintro ⟨ctx, hctx⟩
    unfold Game.parseSavedGame at hctx
    by_cases hrec : Game.isRecord v
    · rw [if_pos hrec] at hctx
      rcases h1 : Game.asNumber (Game.getField v "level") with _ | n1 <;>
        rcases h2 : Game.asNumber (Game.getField v "score") with _ | n2 <;>
        rcases h3 : Game.asNumber (Game.getField v "lives") with _ | n3 <;>
        rcases h4 : Game.asString (Game.getField v "playerName") with _ | s4 <;>
        rw [h1, h2, h3, h4] at hctx <;>
        simp only [reduceCtorEq] at hctx
      exact ⟨hrec, ⟨n1, (asNumber_eq_some _ _).mp h1⟩,
        ⟨n2, (asNumber_eq_some _ _).mp h2⟩, ⟨n3, (asNumber_eq_some _ _).mp h3⟩,
        ⟨s4, (asString_eq_some _ _).mp h4⟩⟩
    · rw [if_neg hrec] at hctx
      exact absurd hctx (by simp)
  · rintro ⟨hrec, ⟨n1, h1⟩, ⟨n2, h2⟩, ⟨n3, h3⟩, ⟨s4, h4⟩⟩
    refine ⟨⟨n1, n2, n3, s4⟩, ?_⟩
    unfold Game.parseSavedGame
    rw [if_pos hrec, h1, h2, h3, h4]
    rfl
